import Mathlib

/-!
Verification of the speech-request queue and worker lifecycle of
text_to_speech.py (class TextToSpeech).

The speech-engine capability (pyttsx3) is external: it is modelled by an
oracle that decides, per call, whether engine creation succeeds and whether
a say+runAndWait cycle completes or raises a synthesis error.  The worker
loop, the facade operations and the engine (re)initialization helper are
shallow embeddings of the corresponding Python functions; every engine
interaction is recorded as an event so that claims about engine calls can
be stated as properties of the event trace.
-/

namespace TTS

/-- An engine handle together with the properties applied to it.
Mirrors a pyttsx3 engine after setProperty calls: rate (words per minute),
volume (the code only ever sets 1.0), and the selected voice id; `none`
means the engine default voice was kept. -/
structure Engine where
  rate : Int
  volume : ℚ
  voice : Option String
deriving DecidableEq

/-- A property value passed to setProperty / returned by getProperty. -/
inductive PVal where
  | pInt (n : Int)
  | pRat (q : ℚ)
  | pStr (s : String)
deriving DecidableEq

/-- The characters str.strip() removes by default in Python. -/
def pyWhitespace (c : Char) : Bool :=
  c == ' ' || c == '\t' || c == '\n' || c == '\r' || c == '\x0b' || c == '\x0c'

/-- Truthiness of `text and text.strip()` in Python: the string is non-empty
and contains at least one non-whitespace character.  Used both by speak
(line 171) and by the worker (line 129). -/
def nonBlank (t : String) : Bool :=
  (t != "") && t.data.any (fun c => !pyWhitespace c)

/-- The mutable state of a TextToSpeech instance visible to the caller:
the facade engine handle self.engine, the speech queue (items are texts;
`none` is the shutdown sentinel put by stop), and the is_running flag. -/
structure TTSState where
  engine : Option Engine
  speech_queue : List (Option String)
  is_running : Bool
deriving DecidableEq

/-- pyttsx3 setProperty on a handle, for the three property names the code
uses.  A name or value the engine does not accept leaves the handle
unchanged (the surrounding Python try/except swallows the error). -/
def engineSetProperty (e : Engine) (name : String) (v : PVal) : Engine :=
  if name = "rate" then
    match v with
    | PVal.pInt n => { e with rate := n }
    | _ => e
  else if name = "volume" then
    match v with
    | PVal.pRat q => { e with volume := q }
    | _ => e
  else if name = "voice" then
    match v with
    | PVal.pStr s => { e with voice := some s }
    | _ => e
  else e

/-- TextToSpeech.__init__ (lines 32-79): create the facade engine, set
rate and volume, select voices[voice_index] only when the index is in
range (otherwise log a warning and keep the engine default), create the
empty queue, set is_running and start the worker.  `initOk` is the oracle
for whether pyttsx3.init and the property setup succeed; on failure the
constructor re-raises. -/
def ttsInit (initOk : Bool) (voices : List String) (rate : Int)
    (voice_index : Nat) : Except String TTSState :=
  if initOk then
    let e0 : Engine := { rate := rate, volume := 1, voice := none }
    let e1 : Engine :=
      if h : voice_index < voices.length then
        { e0 with voice := some (voices.get ⟨voice_index, h⟩) }
      else e0
    Except.ok { engine := some e1, speech_queue := [], is_running := true }
  else
    Except.error "Failed to initialize TTS engine"

/-- TextToSpeech.speak (lines 164-175): return without enqueueing when the
text is empty or whitespace-only, otherwise put it on the queue. -/
def speak (st : TTSState) (t : String) : TTSState :=
  if nonBlank t then
    { st with speech_queue := st.speech_queue ++ [some t] }
  else st

/-- TextToSpeech.set_property (lines 191-206): apply the property to the
facade engine self.engine only; the worker engine is not touched. -/
def set_property (st : TTSState) (name : String) (v : PVal) : TTSState :=
  match st.engine with
  | some e => { st with engine := some (engineSetProperty e name v) }
  | none => st

/-- TextToSpeech.stop (lines 226-237), state part: clear is_running and
enqueue the `none` shutdown sentinel.  The bounded join is modelled by the
timed scenario below. -/
def stop (st : TTSState) : TTSState :=
  { st with is_running := false, speech_queue := st.speech_queue ++ [none] }

/-- Oracle for the external engine capability: initOk k is whether the
k-th engine creation (pyttsx3.init plus property setup) succeeds, sayOk k
is whether the k-th say+runAndWait cycle completes (false = the engine
raises a synthesis error). -/
structure Oracle where
  initOk : Nat → Bool
  sayOk : Nat → Bool

/-- One recorded call to the engine capability. -/
inductive Ev where
  /-- endLoop on a handle (during reinitialization or final cleanup). -/
  | endLoop
  /-- A successful engine creation, with the properties applied to it. -/
  | create (e : Engine)
  /-- A failed engine creation attempt. -/
  | initFail
  /-- One say+runAndWait cycle on the text; ok is false when the engine
  raised a synthesis error. -/
  | speakAttempt (t : String) (ok : Bool)
deriving DecidableEq

/-- init_engine (lines 92-115): if a handle exists, endLoop it (failures
swallowed) and drop it; then create a fresh engine and hard-code
rate := 100, volume := 1.0 and the first available voice (lines 105-110).
On failure the handle stays `none` and False is returned (here: `none`).
`ki` indexes the creation attempt in the oracle. -/
def init_engine (o : Oracle) (voices : List String) (ki : Nat)
    (cur : Option Engine) : Option Engine × List Ev :=
  let pre : List Ev :=
    match cur with
    | some _ => [Ev.endLoop]
    | none => []
  if o.initOk ki then
    let e : Engine := { rate := 100, volume := 1, voice := voices.head? }
    (some e, pre ++ [Ev.create e])
  else
    (none, pre ++ [Ev.initFail])

/-- How the worker loop left the queue. -/
inductive WExit where
  /-- The queue drained without a sentinel: the worker is still alive,
  polling with the 1-second get timeout, holding `eng`. -/
  | blocked (eng : Option Engine)
  /-- The sentinel was dequeued: the worker broke out of the loop, ran the
  final cleanup, and terminated; `leftover` was never dequeued. -/
  | stopped (leftover : List (Option String))
deriving DecidableEq

/-- The worker loop of _speech_worker (lines 121-160), run over the queue
contents while is_running stays true.  `eng` is worker_engine, `ki` and
`ks` index init and say attempts in the oracle.  Returns the engine-call
trace and how the loop exited.  Branches mirror the code: sentinel =>
break then final endLoop cleanup (lines 125-127, 156-160); blank text =>
skip (lines 129, 146-147); text with a live engine => say+runAndWait, then
on success reinitialize (failure only logged, lines 132-140), on a
synthesis error reinitialize in the except branch (lines 142-145); text
with no engine (a previous reinit failed) => the attribute access on None
raises before any engine call, is caught by the same except branch, and
init_engine runs again. -/
def runFrom (o : Oracle) (voices : List String) :
    Option Engine → Nat → Nat → List (Option String) → List Ev × WExit
  | eng, _, _, [] => ([], WExit.blocked eng)
  | eng, _, _, none :: rest =>
      ((match eng with
        | some _ => [Ev.endLoop]
        | none => []),
       WExit.stopped rest)
  | eng, ki, ks, some t :: rest =>
      if nonBlank t then
        match eng with
        | none =>
            let r := init_engine o voices ki none
            let c := runFrom o voices r.1 (ki + 1) ks rest
            (r.2 ++ c.1, c.2)
        | some e =>
            if o.sayOk ks then
              let r := init_engine o voices ki (some e)
              let c := runFrom o voices r.1 (ki + 1) (ks + 1) rest
              (Ev.speakAttempt t true :: (r.2 ++ c.1), c.2)
            else
              let r := init_engine o voices ki (some e)
              let c := runFrom o voices r.1 (ki + 1) (ks + 1) rest
              (Ev.speakAttempt t false :: (r.2 ++ c.1), c.2)
      else
        runFrom o voices eng ki ks rest

/-- How _speech_worker as a whole exited. -/
inductive TopExit where
  /-- The initial init_engine failed: the worker returned at line 119
  without entering the loop; `leftover` was never dequeued. -/
  | startupFailed (leftover : List (Option String))
  /-- The loop ran. -/
  | ran (ex : WExit)
deriving DecidableEq

/-- _speech_worker (lines 81-162): initial init_engine on startup
(lines 117-119; on failure return at once), then the loop. -/
def speechWorker (o : Oracle) (voices : List String)
    (items : List (Option String)) : List Ev × TopExit :=
  let r := init_engine o voices 0 none
  match r.1 with
  | none => (r.2, TopExit.startupFailed items)
  | some e =>
      let c := runFrom o voices (some e) 1 0 items
      (r.2 ++ c.1, TopExit.ran c.2)

/-- The texts of the say+runAndWait calls in a trace, in order. -/
def speakTexts (evs : List Ev) : List String :=
  evs.filterMap (fun ev =>
    match ev with
    | Ev.speakAttempt t _ => some t
    | _ => none)

/-- The say+runAndWait calls in a trace with their outcomes, in order. -/
def speakOutcomes (evs : List Ev) : List (String × Bool) :=
  evs.filterMap (fun ev =>
    match ev with
    | Ev.speakAttempt t ok => some (t, ok)
    | _ => none)

/-- Expected say outcomes for a run of texts starting at say-counter ks. -/
def outcomesFrom (o : Oracle) : Nat → List String → List (String × Bool)
  | _, [] => []
  | ks, t :: ts => (t, o.sayOk ks) :: outcomesFrom o (ks + 1) ts

/-- The all-successful engine oracle. -/
def allOk : Oracle :=
  { initOk := fun _ => true, sayOk := fun _ => true }

/-- The oracle whose first n say+runAndWait cycles raise a synthesis error
and whose later cycles succeed; engine creation always succeeds. -/
def failFirst (n : Nat) : Oracle :=
  { initOk := fun _ => true, sayOk := fun k => decide (n ≤ k) }

/-!
Timed model of the shutdown race.  stop (lines 226-237) sets is_running,
puts the sentinel and joins the worker with timeout 3; the join returns
when the thread terminates or after 3 seconds, whichever is first.  The
schedule modelled here: stop is called at time 0 while the worker is
inside runAndWait for an utterance that still needs d seconds.  When
runAndWait returns, the worker reinitializes (endLoop on the old handle,
then a fresh creation, lines 138-139), re-checks is_running at the loop
head, finds it false, runs the final endLoop cleanup (lines 156-160) and
terminates; these trailing actions are instantaneous in the model.
-/

/-- A timed engine call in the shutdown scenario. -/
inductive TEv where
  | endLoop
  | create
deriving DecidableEq

/-- Combined state of the worker and the stop call in the shutdown
scenario: current time, `speakingLeft = some r` while the worker is inside
runAndWait with r seconds remaining (`none` once it has terminated), the
time at which stop returned (if yet), the timed engine-call trace, and the
time the worker terminated (if yet). -/
structure TState where
  time : Nat
  speakingLeft : Option Nat
  stopRet : Option Nat
  tevs : List (Nat × TEv)
  wexit : Option Nat
deriving DecidableEq

/-- One second of the shutdown scenario.  While the worker is still inside
runAndWait, time advances and the join times out at time 3 if the worker
is still speaking then.  When runAndWait returns, the trailing reinit and
cleanup run at the current time and the worker terminates; the join
returns at that time if it had not timed out already. -/
def tstep (s : TState) : TState :=
  match s.speakingLeft with
  | some (r + 1) =>
      { s with
        time := s.time + 1,
        speakingLeft := some r,
        stopRet :=
          if s.stopRet = none ∧ 3 ≤ s.time + 1 then some 3 else s.stopRet }
  | some 0 =>
      { s with
        speakingLeft := none,
        tevs := s.tevs ++
          [(s.time, TEv.endLoop), (s.time, TEv.create), (s.time, TEv.endLoop)],
        wexit := some s.time,
        stopRet :=
          match s.stopRet with
          | some x => some x
          | none => some s.time }
  | none => s

/-- Run n seconds of the shutdown scenario. -/
def trun : Nat → TState → TState
  | 0, s => s
  | n + 1, s => trun n (tstep s)

/-- Initial state of the shutdown scenario: stop has just set the flag and
put the sentinel at time 0; the worker is inside runAndWait with d
seconds remaining. -/
def stopStart (d : Nat) : TState :=
  { time := 0, speakingLeft := some d, stopRet := none, tevs := [],
    wexit := none }

/-- The completed shutdown scenario for an in-progress utterance needing d
more seconds (d + 2 steps suffice for every action to have happened). -/
def stopScenario (d : Nat) : TState :=
  trun (d + 2) (stopStart d)

/-! Lemmas about the timed shutdown scenario. -/

lemma tstep_stopRet_some (s : TState) (x : Nat) (h : s.stopRet = some x) :
    (tstep s).stopRet = some x := by
  cases hs : s.speakingLeft with
  | none => simp [tstep, hs, h]
  | some r =>
    cases r with
    | zero => simp [tstep, hs, h]
    | succ m => simp [tstep, hs, h]

lemma trun_stopRet_some (n : Nat) (s : TState) (x : Nat)
    (h : s.stopRet = some x) : (trun n s).stopRet = some x := by
  induction n generalizing s with
  | zero => exact h
  | succ m ih => exact ih (tstep s) (tstep_stopRet_some s x h)

lemma trun_add (m n : Nat) (s : TState) :
    trun (m + n) s = trun m (trun n s) := by
  induction n generalizing s with
  | zero => rfl
  | succ k ih => exact ih (tstep s)

/-- Whatever the remaining duration of the in-progress utterance, the join
inside stop returns by time 3: stop never blocks past its timeout. -/
lemma stopScenario_bounded (d : Nat) :
    ∃ r, (stopScenario d).stopRet = some r ∧ r ≤ 3 := by
  match d with
  | 0 => exact ⟨0, by decide, by decide⟩
  | 1 => exact ⟨1, by decide, by decide⟩
  | 2 => exact ⟨2, by decide, by decide⟩
  | k + 3 =>
    refine ⟨3, ?_, by omega⟩
    have h3 : trun 3 (stopStart (k + 3)) =
        { time := 3, speakingLeft := some k, stopRet := some 3, tevs := [],
          wexit := none } := rfl
    have hcomp : stopScenario (k + 3) =
        trun (k + 2) (trun 3 (stopStart (k + 3))) :=
      trun_add (k + 2) 3 (stopStart (k + 3))
    rw [hcomp, h3]
    exact trun_stopRet_some (k + 2) _ 3 rfl

/-! Lemmas about the worker loop trace. -/

lemma init_engine_no_speak (o : Oracle) (v : List String) (ki : Nat)
    (cur : Option Engine) (u : String) (ok : Bool) :
    Ev.speakAttempt u ok ∉ (init_engine o v ki cur).2 := by
  cases cur <;> cases h : o.initOk ki <;> simp [init_engine, h]

/-- Every say+runAndWait call recorded by the worker loop carries a
non-blank text: the guard at line 129 filters everything else. -/
lemma runFrom_speak_nonBlank (o : Oracle) (v : List String) :
    ∀ (items : List (Option String)) (eng : Option Engine) (ki ks : Nat)
      (u : String) (ok : Bool),
      Ev.speakAttempt u ok ∈ (runFrom o v eng ki ks items).1 →
      nonBlank u = true
  | [], eng, ki, ks, u, ok => by simp [runFrom]
  | none :: rest, eng, ki, ks, u, ok => by cases eng <;> simp [runFrom]
  | some t :: rest, eng, ki, ks, u, ok => by
      by_cases ht : nonBlank t
      · cases eng with
        | none =>
            intro hmem
            simp [runFrom, ht] at hmem
            rcases hmem with h1 | h2
            · exact absurd h1 (init_engine_no_speak o v ki none u ok)
            · exact runFrom_speak_nonBlank o v rest _ (ki + 1) ks u ok h2
        | some e =>
            intro hmem
            cases hs : o.sayOk ks <;> simp [runFrom, ht, hs] at hmem <;>
              rcases hmem with h0 | h1 | h2
            · exact h0.1 ▸ ht
            · exact absurd h1 (init_engine_no_speak o v ki (some e) u ok)
            · exact runFrom_speak_nonBlank o v rest _ (ki + 1) (ks + 1) u ok h2
            · exact h0.1 ▸ ht
            · exact absurd h1 (init_engine_no_speak o v ki (some e) u ok)
            · exact runFrom_speak_nonBlank o v rest _ (ki + 1) (ks + 1) u ok h2
      · intro hmem
        exact runFrom_speak_nonBlank o v rest eng ki ks u ok
          (by simpa [runFrom, ht] using hmem)

lemma foldl_speak_queue :
    ∀ (ts : List String) (st : TTSState), (∀ t ∈ ts, nonBlank t = true) →
      (List.foldl speak st ts).speech_queue = st.speech_queue ++ ts.map some
  | [], st, _ => by simp
  | t :: ts, st, h => by
      have ht : nonBlank t = true := h t (by simp)
      have hts : ∀ x ∈ ts, nonBlank x = true := fun x hx => h x (by simp [hx])
      simp [speak, ht, foldl_speak_queue ts _ hts]

/-- FIFO of say+runAndWait calls: while engine creation keeps succeeding,
the worker loop speaks exactly the queued texts, in queue order. -/
lemma runFrom_fifo (o : Oracle) (v : List String)
    (ho : ∀ k, o.initOk k = true) :
    ∀ (ts : List String) (e : Engine) (ki ks : Nat),
      (∀ t ∈ ts, nonBlank t = true) →
      speakTexts (runFrom o v (some e) ki ks (ts.map some)).1 = ts
  | [], e, ki, ks, _ => by simp [runFrom, speakTexts]
  | t :: ts, e, ki, ks, h => by
      have ht : nonBlank t = true := h t (by simp)
      have hts : ∀ x ∈ ts, nonBlank x = true := fun x hx => h x (by simp [hx])
      cases hs : o.sayOk ks <;>
        simpa [runFrom, ht, hs, init_engine, ho ki, speakTexts] using
          runFrom_fifo o v ho ts { rate := 100, volume := 1, voice := v.head? }
            (ki + 1) (ks + 1) hts

/-- Same as runFrom_fifo but with the per-call outcomes. -/
lemma runFrom_outcomes (o : Oracle) (v : List String)
    (ho : ∀ k, o.initOk k = true) :
    ∀ (ts : List String) (e : Engine) (ki ks : Nat),
      (∀ t ∈ ts, nonBlank t = true) →
      speakOutcomes (runFrom o v (some e) ki ks (ts.map some)).1 =
        outcomesFrom o ks ts
  | [], e, ki, ks, _ => by simp [runFrom, speakOutcomes, outcomesFrom]
  | t :: ts, e, ki, ks, h => by
      have ht : nonBlank t = true := h t (by simp)
      have hts : ∀ x ∈ ts, nonBlank x = true := fun x hx => h x (by simp [hx])
      cases hs : o.sayOk ks <;>
        simpa [runFrom, ht, hs, init_engine, ho ki, speakOutcomes,
          outcomesFrom] using
          runFrom_outcomes o v ho ts
            { rate := 100, volume := 1, voice := v.head? } (ki + 1) (ks + 1) hts

/-- A queue without a sentinel never stops the worker loop: it drains the
items and goes back to polling. -/
lemma runFrom_blocked (o : Oracle) (v : List String) :
    ∀ (ts : List String) (eng : Option Engine) (ki ks : Nat),
      ∃ g, (runFrom o v eng ki ks (ts.map some)).2 = WExit.blocked g
  | [], eng, ki, ks => ⟨eng, rfl⟩
  | t :: ts, eng, ki, ks => by
      by_cases ht : nonBlank t
      · cases eng with
        | none =>
            simpa [runFrom, ht] using
              runFrom_blocked o v ts (init_engine o v ki none).1 (ki + 1) ks
        | some e =>
            cases hs : o.sayOk ks <;>
              simpa [runFrom, ht, hs] using
                runFrom_blocked o v ts (init_engine o v ki (some e)).1
                  (ki + 1) (ks + 1)
      · simpa [runFrom, ht] using runFrom_blocked o v ts eng ki ks

lemma outcomesFrom_append (o : Oracle) :
    ∀ (a b : List String) (ks : Nat),
      outcomesFrom o ks (a ++ b) =
        outcomesFrom o ks a ++ outcomesFrom o (ks + a.length) b
  | [], b, ks => by simp [outcomesFrom]
  | t :: a, b, ks => by
      have hrec := outcomesFrom_append o a b (ks + 1)
      have harith : ks + 1 + a.length = ks + (a.length + 1) := by omega
      simp [outcomesFrom, hrec, harith]

lemma outcomesFrom_failFirst_allFalse (n : Nat) :
    ∀ (ts : List String) (ks : Nat), ks + ts.length ≤ n →
      outcomesFrom (failFirst n) ks ts = ts.map (fun t => (t, false))
  | [], ks, _ => rfl
  | t :: ts, ks, h => by
      have hk : ¬ n ≤ ks := by simp at h; omega
      have hrec := outcomesFrom_failFirst_allFalse n ts (ks + 1)
        (by simp at h ⊢; omega)
      simp [failFirst] at hrec
      simp [outcomesFrom, failFirst, hk, hrec]

/-- Items past the first sentinel are never processed: the loop breaks at
the sentinel, so the traces with and without the later items agree. -/
lemma runFrom_stops_at_sentinel (o : Oracle) (v : List String) :
    ∀ (xs rest : List (Option String)) (eng : Option Engine) (ki ks : Nat),
      (runFrom o v eng ki ks (xs ++ none :: rest)).1 =
        (runFrom o v eng ki ks (xs ++ [none])).1
  | [], rest, eng, ki, ks => by cases eng <;> simp [runFrom]
  | none :: xs, rest, eng, ki, ks => by cases eng <;> simp [runFrom]
  | some t :: xs, rest, eng, ki, ks => by
      by_cases ht : nonBlank t
      · cases eng with
        | none =>
            simp [runFrom, ht,
              runFrom_stops_at_sentinel o v xs rest (init_engine o v ki none).1
                (ki + 1) ks]
        | some e =>
            cases hs : o.sayOk ks <;>
              simp [runFrom, ht, hs,
                runFrom_stops_at_sentinel o v xs rest
                  (init_engine o v ki (some e)).1 (ki + 1) (ks + 1)]
      · simp [runFrom, ht, runFrom_stops_at_sentinel o v xs rest eng ki ks]

/-- C1: the claim says that after set_property the worker constructs every
post-reinit engine with the last-applied properties, e.g. rate 150 after
set_property rate 150.  Evaluating the code at that input shows the
opposite: set_property reaches only the facade engine (its rate becomes
150), while every engine creation performed by the worker, including the
post-utterance reinitialization, hard-codes rate 100 and no creation ever
uses rate 150. -/
theorem set_property_not_propagated_to_worker :
    ttsInit true ["v0"] 100 0 =
      Except.ok { engine := some { rate := 100, volume := 1, voice := some "v0" },
                  speech_queue := [], is_running := true } ∧
    (set_property
        { engine := some { rate := 100, volume := 1, voice := some "v0" },
          speech_queue := [], is_running := true } "rate" (PVal.pInt 150)).engine =
      some { rate := 150, volume := 1, voice := some "v0" } ∧
    ((speechWorker allOk ["v0"] [some "hello"]).1.all (fun ev =>
        match ev with
        | Ev.create e => decide (e.rate = 100)
        | _ => true)) = true ∧
    ((speechWorker allOk ["v0"] [some "hello"]).1.all (fun ev =>
        match ev with
        | Ev.create e => decide (e.rate ≠ 150)
        | _ => true)) = true ∧
    (100 : Int) ≠ 150 := by
  refine ⟨rfl, by decide, by decide, by decide, by decide⟩

/-- C2 counterexample: in the shutdown schedule where stop is called while
the worker still needs 5 seconds of runAndWait, stop returns at its
3-second join timeout, the worker only terminates at time 5, and an engine
creation call (the post-utterance reinitialization) happens at time 5,
after stop has returned: the claim fails as stated. -/
theorem engine_call_after_stop_returns :
    (stopScenario 5).stopRet = some 3 ∧
    (stopScenario 5).wexit = some 5 ∧
    (5, TEv.create) ∈ (stopScenario 5).tevs ∧
    ¬ (5 ≤ 3) := by decide

/-- C2 amended: when the in-progress utterance finishes within the
3-second join timeout, the worker has terminated no later than the moment
stop returns, and every engine call carries a timestamp no later than the
return of stop. -/
theorem no_engine_call_after_stop_when_within_timeout (d : Nat)
    (hd : d ≤ 3) :
    ∃ w r, (stopScenario d).wexit = some w ∧
      (stopScenario d).stopRet = some r ∧ w ≤ r ∧
      ∀ p ∈ (stopScenario d).tevs, p.1 ≤ r := by
  interval_cases d
  · exact ⟨0, 0, by decide, by decide, by decide, by decide⟩
  · exact ⟨1, 1, by decide, by decide, by decide, by decide⟩
  · exact ⟨2, 2, by decide, by decide, by decide, by decide⟩
  · exact ⟨3, 3, by decide, by decide, by decide, by decide⟩

/-- Witness for the amended C2 theorem at d = 1. -/
theorem no_engine_call_after_stop_when_within_timeout_witness :
    ∃ w r, (stopScenario 1).wexit = some w ∧
      (stopScenario 1).stopRet = some r ∧ w ≤ r ∧
      ∀ p ∈ (stopScenario 1).tevs, p.1 ≤ r :=
  no_engine_call_after_stop_when_within_timeout 1 (by decide)

/-- C7: stop sets the should-stop flag and enqueues the shutdown sentinel;
a second stop after the first raises nothing and only appends another
sentinel; and in the timed shutdown scenario the join inside stop returns
by time 3 whatever the remaining utterance duration, so stop never blocks
past its bounded timeout. -/
theorem stop_idempotent_and_bounded (st : TTSState) (d : Nat) :
    (stop st).is_running = false ∧
    (stop st).speech_queue = st.speech_queue ++ [none] ∧
    (stop (stop st)).is_running = false ∧
    (stop (stop st)).speech_queue = st.speech_queue ++ [none, none] ∧
    (∃ r, (stopScenario d).stopRet = some r ∧ r ≤ 3) := by
  refine ⟨rfl, rfl, rfl, ?_, stopScenario_bounded d⟩
  simp [stop]

/-- C8: when the initial engine acquisition in the worker fails, the
worker terminates at once: the only engine interaction is the failed
creation, no queue item is ever dequeued, and no say+runAndWait call is
made. -/
theorem startup_failure_terminates_worker (o : Oracle) (v : List String)
    (items : List (Option String)) (h : o.initOk 0 = false) :
    speechWorker o v items = ([Ev.initFail], TopExit.startupFailed items) ∧
    speakTexts (speechWorker o v items).1 = [] := by
  refine ⟨?_, ?_⟩ <;> simp [speechWorker, init_engine, h, speakTexts]

/-- Witness for C8 with an oracle whose first creation fails. -/
theorem startup_failure_terminates_worker_witness :
    speechWorker { initOk := fun _ => false, sayOk := fun _ => true } []
        [some "x"] =
      ([Ev.initFail], TopExit.startupFailed [some "x"]) ∧
    speakTexts (speechWorker { initOk := fun _ => false, sayOk := fun _ => true }
        [] [some "x"]).1 = [] :=
  startup_failure_terminates_worker _ _ _ rfl

/-- C10: constructing with a voice_index at or past the end of the voice
list still succeeds: the guard at line 62 skips the voice assignment, the
engine keeps its default voice, and the state is created with the queue
empty and the worker running. -/
theorem construct_with_out_of_range_voice_index (voices : List String)
    (rate : Int) (vi : Nat) (h : voices.length ≤ vi) :
    ttsInit true voices rate vi =
      Except.ok { engine := some { rate := rate, volume := 1, voice := none },
                  speech_queue := [], is_running := true } := by
  simp [ttsInit, show ¬ vi < voices.length from by omega]

/-- Witness for C10 at voice_index 5 with a single available voice. -/
theorem construct_with_out_of_range_voice_index_witness :
    ttsInit true ["v0"] 100 5 =
      Except.ok { engine := some { rate := 100, volume := 1, voice := none },
                  speech_queue := [], is_running := true } :=
  construct_with_out_of_range_voice_index ["v0"] 100 5 (by decide)

/-- C3: a sequence of speak calls on non-blank texts enqueues exactly
those texts in order, and the worker, while engine creation keeps
succeeding, invokes say+runAndWait on exactly those texts in the same
order: FIFO, no reordering, no dropping. -/
theorem speak_fifo (ts : List String) (o : Oracle) (v : List String)
    (eng : Option Engine)
    (h1 : ∀ t ∈ ts, nonBlank t = true) (h2 : ∀ k, o.initOk k = true) :
    (List.foldl speak
        { engine := eng, speech_queue := [], is_running := true }
        ts).speech_queue = ts.map some ∧
    speakTexts (speechWorker o v (ts.map some)).1 = ts := by
  constructor
  · simpa using foldl_speak_queue ts _ h1
  · simp [speechWorker, init_engine, h2 0, speakTexts]
    simpa [speakTexts] using
      runFrom_fifo o v h2 ts { rate := 100, volume := 1, voice := v.head? }
        1 0 h1

/-- Witness for C3 on the queue hello, world. -/
theorem speak_fifo_witness :
    (List.foldl speak
        { engine := none, speech_queue := [], is_running := true }
        ["hello", "world"]).speech_queue = [some "hello", some "world"] ∧
    speakTexts (speechWorker allOk ["v0"]
        ([ "hello", "world" ].map some)).1 = ["hello", "world"] :=
  speak_fifo ["hello", "world"] allOk ["v0"] none
    (by intro t ht; fin_cases ht <;> decide) (fun _ => rfl)

/-- C4: speak of an empty or whitespace-only string is a no-op: the state,
in particular the queue, is unchanged, and no trace of any worker run
contains a say+runAndWait call on that string (engine call count 0 for
it). -/
theorem blank_speak_is_noop (st : TTSState) (t : String)
    (h : nonBlank t = false) :
    speak st t = st ∧
    ∀ (o : Oracle) (v : List String) (eng : Option Engine) (ki ks : Nat)
      (items : List (Option String)) (ok : Bool),
      Ev.speakAttempt t ok ∉ (runFrom o v eng ki ks items).1 := by
  refine ⟨by simp [speak, h], ?_⟩
  intro o v eng ki ks items ok hmem
  have hnb := runFrom_speak_nonBlank o v items eng ki ks t ok hmem
  rw [h] at hnb
  exact Bool.false_ne_true hnb

/-- Witness for C4 on the whitespace-only string of three spaces. -/
theorem blank_speak_is_noop_witness :
    speak { engine := none, speech_queue := [], is_running := true } "   " =
      { engine := none, speech_queue := [], is_running := true } ∧
    Ev.speakAttempt "   " true ∉
      (runFrom allOk ["v0"] none 0 0 [some "   ", some "a"]).1 :=
  ⟨(blank_speak_is_noop
      { engine := none, speech_queue := [], is_running := true } "   "
      (by decide)).1,
   (blank_speak_is_noop
      { engine := none, speech_queue := [], is_running := true } "   "
      (by decide)).2 allOk ["v0"] none 0 0 [some "   ", some "a"] true⟩

/-- C5: processing a non-blank item with a live engine performs the
say+runAndWait call and then, whatever its outcome (synthesis error or
success), immediately performs the reinitialization and continues with
the reinitialized handle: the Speaking to Reinitializing transition is
unconditional. -/
theorem speaking_unconditionally_reinitializes (o : Oracle)
    (v : List String) (ki ks : Nat) (e : Engine) (t : String)
    (rest : List (Option String)) (h : nonBlank t = true) :
    runFrom o v (some e) ki ks (some t :: rest) =
      (Ev.speakAttempt t (o.sayOk ks) ::
        ((init_engine o v ki (some e)).2 ++
          (runFrom o v (init_engine o v ki (some e)).1 (ki + 1) (ks + 1)
            rest).1),
       (runFrom o v (init_engine o v ki (some e)).1 (ki + 1) (ks + 1)
         rest).2) := by
  cases hs : o.sayOk ks <;> simp [runFrom, h, hs]

/-- Witness for C5 on the text hi. -/
theorem speaking_unconditionally_reinitializes_witness :
    runFrom allOk ["v0"]
        (some { rate := 100, volume := 1, voice := some "v0" }) 1 0
        (some "hi" :: []) =
      (Ev.speakAttempt "hi" (allOk.sayOk 0) ::
        ((init_engine allOk ["v0"] 1
            (some { rate := 100, volume := 1, voice := some "v0" })).2 ++
          (runFrom allOk ["v0"]
            (init_engine allOk ["v0"] 1
              (some { rate := 100, volume := 1, voice := some "v0" })).1
            2 1 []).1),
       (runFrom allOk ["v0"]
          (init_engine allOk ["v0"] 1
            (some { rate := 100, volume := 1, voice := some "v0" })).1
          2 1 []).2) :=
  speaking_unconditionally_reinitializes allOk ["v0"] 1 0
    { rate := 100, volume := 1, voice := some "v0" } "hi" [] (by decide)

/-- C6: with an engine that raises a synthesis error on every one of the
first n say+runAndWait cycles and then succeeds, the worker attempts every
queued item in order, the n failures stay inside the worker, and the
subsequent item is spoken successfully; afterwards the worker is back to
polling the queue, still alive. -/
theorem synthesis_errors_contained (ts : List String) (t : String)
    (v : List String)
    (h1 : ∀ x ∈ ts, nonBlank x = true) (h2 : nonBlank t = true) :
    speakOutcomes (speechWorker (failFirst ts.length) v
        ((ts ++ [t]).map some)).1 =
      ts.map (fun x => (x, false)) ++ [(t, true)] ∧
    ∃ g, (speechWorker (failFirst ts.length) v ((ts ++ [t]).map some)).2 =
      TopExit.ran (WExit.blocked g) := by
  have hall : ∀ x ∈ ts ++ [t], nonBlank x = true := by
    intro x hx
    rcases List.mem_append.1 hx with hx | hx
    · exact h1 x hx
    · simp at hx; subst hx; exact h2
  have hinit : (failFirst ts.length).initOk 0 = true := rfl
  constructor
  · have hout := runFrom_outcomes (failFirst ts.length) v (fun _ => rfl)
      (ts ++ [t]) { rate := 100, volume := 1, voice := v.head? } 1 0 hall
    have happ := outcomesFrom_append (failFirst ts.length) ts [t] 0
    have hfalse := outcomesFrom_failFirst_allFalse ts.length ts 0 (by omega)
    have hsingle : outcomesFrom (failFirst ts.length) (0 + ts.length) [t] =
        [(t, true)] := by simp [outcomesFrom, failFirst]
    rw [happ, hfalse, hsingle] at hout
    simp [speechWorker, init_engine, hinit, speakOutcomes]
    simpa [speakOutcomes] using hout
  · obtain ⟨g, hg⟩ := runFrom_blocked (failFirst ts.length) v (ts ++ [t])
      (some { rate := 100, volume := 1, voice := v.head? }) 1 0
    refine ⟨g, ?_⟩
    simp [speechWorker, init_engine, hinit]
    simpa using hg

/-- Witness for C6: three consecutive synthesis errors, then a success. -/
theorem synthesis_errors_contained_witness :
    speakOutcomes (speechWorker (failFirst 3) ["v0"]
        ((["a", "b", "c"] ++ ["d"]).map some)).1 =
      [("a", false), ("b", false), ("c", false), ("d", true)] ∧
    ∃ g, (speechWorker (failFirst 3) ["v0"]
        ((["a", "b", "c"] ++ ["d"]).map some)).2 =
      TopExit.ran (WExit.blocked g) :=
  synthesis_errors_contained ["a", "b", "c"] "d" ["v0"]
    (by intro x hx; fin_cases hx <;> decide) (by decide)

/-- C9: speak after stop raises nothing (it is a total state update that
appends the text behind the shutdown sentinel) and the text is never
spoken: the worker trace over the queue with the late text equals the
trace without it, because the loop breaks at the sentinel before ever
reaching the late item. -/
theorem speak_after_stop_harmless (st : TTSState) (t : String)
    (o : Oracle) (v : List String) (eng : Option Engine) (ki ks : Nat)
    (h : nonBlank t = true) :
    speak (stop st) t =
      { st with is_running := false,
                speech_queue := st.speech_queue ++ [none, some t] } ∧
    (runFrom o v eng ki ks (st.speech_queue ++ [none, some t])).1 =
      (runFrom o v eng ki ks (st.speech_queue ++ [none])).1 := by
  constructor
  · simp [speak, stop, h]
  · exact runFrom_stops_at_sentinel o v st.speech_queue [some t] eng ki ks

/-- Witness for C9: a late speak of the text late after stop. -/
theorem speak_after_stop_harmless_witness :
    speak
        (stop
          { engine := none, speech_queue := [some "early"],
            is_running := true })
        "late" =
      { engine := none,
        speech_queue := [some "early", none, some "late"],
        is_running := false } ∧
    (runFrom allOk ["v0"]
        (some { rate := 100, volume := 1, voice := some "v0" }) 1 0
        ([some "early"] ++ [none, some "late"])).1 =
      (runFrom allOk ["v0"]
        (some { rate := 100, volume := 1, voice := some "v0" }) 1 0
        ([some "early"] ++ [none])).1 :=
  speak_after_stop_harmless
    { engine := none, speech_queue := [some "early"], is_running := true }
    "late" allOk ["v0"]
    (some { rate := 100, volume := 1, voice := some "v0" }) 1 0 (by decide)

end TTS
